import Mathlib

/-!
Verification of the CH32V003 flash-storage driver (`ch32v003_flash.h`).

The driver is shallowly embedded: the flash controller's observable state
(main-flash bytes, controller mode bits, option-byte cells) is a `FlashState`
record, and each C function becomes a Lean function on that state.  Machine
integers are modelled as `Nat` with explicit `% 2^w` where C truncation
occurs.  The hardware completes every erase/program operation synchronously
in this model, so the driver's `flash_wait_until_not_busy` spin loops are
identities and the busy flag never needs to be represented between
operations.
-/

namespace CH32V

/-- Observable state of the flash subsystem: main-flash contents
(byte-addressed), the controller bits that the driver touches
(`FLASH_CTLR_LOCK`, `CR_PER`, `CR_PG`, `CR_OPTER`, `CR_OPTPG`), the
`FLASH->ADDR` register, and the six 16-bit option-byte cells of `OB`. -/
structure FlashState where
  mem : Nat → Nat
  lock : Bool
  per : Bool
  pg : Bool
  opter : Bool
  optpg : Bool
  faddr : Nat
  obUSER : Nat
  obRDPR : Nat
  obWRPR0 : Nat
  obWRPR1 : Nat
  obData1 : Nat
  obData0 : Nat

/-- `FLASH_BASE` for the CH32V003 (0x08000000). -/
def FLASH_BASE : Nat := 0x08000000

/-- The macro `FLASH_PRECALCULATE_NONVOLATILE_ADDR(n)`:
`FLASH_BASE + (uint32_t)(uintptr_t)(FLASH_LENGTH_OVERRIDE) + n`, computed in
32-bit unsigned arithmetic.  The link-time symbol `FLASH_LENGTH_OVERRIDE` is
passed explicitly as `flashLength`. -/
def FLASH_PRECALCULATE_NONVOLATILE_ADDR (flashLength n : Nat) : Nat :=
  (FLASH_BASE + flashLength % 4294967296 + n % 4294967296) % 4294967296

/-- `flash_calculate_runtime_address(byte_number)`:
`FLASH_BASE + (uint16_t)(uintptr_t)FLASH_LENGTH_OVERRIDE + byte_number`.
Note the cast of the link-time symbol to `uint16_t` (not `uint32_t`), and
the `uint16_t` parameter type; both truncations are modelled by `% 65536`. -/
def flash_calculate_runtime_address (flashLength byte_number : Nat) : Nat :=
  (FLASH_BASE + flashLength % 65536 + byte_number % 65536) % 4294967296

/-- `flash_dechecksum(input)`: extract the low byte, compare it with the
bitwise NOT of the high byte (both as `uint8_t`), and return the low byte on
a match, 0 otherwise.  `~(input >> 8)` truncated to `uint8_t` is
`255 - (input >> 8) % 256`. -/
def flash_dechecksum (input : Nat) : Nat :=
  let originalData := input % 256
  let invertedData := 255 - input / 256 % 256
  if invertedData = originalData then originalData else 0

/-- The cell encoding named by the spec: `encode(b) = ((~b & 0xFF) << 8) | b`.
For `b < 256` the C expression `~b & 0xFF` equals `b XOR 255`. -/
def encode (b : Nat) : Nat :=
  Nat.lor (Nat.shiftLeft (Nat.xor b 255) 8) b

/-- `flash_lock()`: set `FLASH_CTLR_LOCK` in the control register. -/
def flash_lock (s : FlashState) : FlashState :=
  { s with lock := true }

/-- `flash_unlock()`: the two-key write sequence to `FLASH->KEYR`; the
hardware clears `FLASH_CTLR_LOCK` on the correct sequence, which the driver
always issues. -/
def flash_unlock (s : FlashState) : FlashState :=
  { s with lock := false }

/-- `flash_erase_page(start_addr)`: return immediately if
`FLASH->CTLR & FLASH_CTLR_LOCK`; otherwise wait-not-busy (identity in the
synchronous hardware model), set `CR_PER`, write `FLASH->ADDR`, set
`CR_STRT` — whereupon the hardware resets every byte of the 64-byte page
containing `FLASH->ADDR` to the erased pattern 0xFF — wait-not-busy, and
clear `CR_PER`. -/
def flash_erase_page (start_addr : Nat) (s : FlashState) : FlashState :=
  if s.lock then s
  else
    let s1 := { s with per := true }
    let s2 := { s1 with faddr := start_addr % 4294967296 }
    let s3 := { s2 with mem := (fun a =>
      if a / 64 = s2.faddr / 64 then 255 else s2.mem a) }
    { s3 with per := false }

/-- `flash_program_16(addr, data)`: return immediately if
`FLASH->CTLR & FLASH_CTLR_LOCK`; otherwise wait-not-busy, set `CR_PG`,
perform the 16-bit store `*(uint16_t*)addr = data` (little-endian: low byte
at `addr`, high byte at `addr + 1`; `data` is a `uint16_t` parameter, hence
`% 65536`), wait-not-busy, and clear `CR_PG`. -/
def flash_program_16 (addr d : Nat) (s : FlashState) : FlashState :=
  if s.lock then s
  else
    let data := d % 65536
    let s1 := { s with pg := true }
    let s2 := { s1 with mem := (fun a =>
      if a = addr then data % 256
      else if a = addr + 1 then data / 256
      else s1.mem a) }
    { s2 with pg := false }

/-- `flash_program_2x8_bits(addr, byte1, byte0)`: delegates
`(byte1 << 8) + byte0` to `flash_program_16`. -/
def flash_program_2x8_bits (addr byte1 byte0 : Nat) (s : FlashState) : FlashState :=
  flash_program_16 addr (Nat.shiftLeft (byte1 % 256) 8 + byte0 % 256) s

/-- `flash_program_float_value(addr, value)`: the float is reinterpreted
through `union float_2xuint16t` as two 16-bit halves of its 32-bit pattern
(little-endian: `u16[0]` is the low half), here represented directly by the
pattern `bits`; the low half is programmed at `addr`, the high half at
`addr + 2`. -/
def flash_program_float_value (addr bits : Nat) (s : FlashState) : FlashState :=
  let s1 := flash_program_16 addr (bits % 65536) s
  flash_program_16 (addr + 2) (bits / 65536 % 65536) s1

/-- A 16-bit little-endian load from byte-addressed flash. -/
def load16 (s : FlashState) (addr : Nat) : Nat :=
  s.mem addr + 256 * s.mem (addr + 1)

/-- `flash_read_16_bits(addr)`: the 16-bit load `*(uint16_t*)addr`.  Reads
are kept in value-and-state form so that their (absent) effect on the
controller is part of the statement. -/
def flash_read_16_bits (addr : Nat) (s : FlashState) : Nat × FlashState :=
  (load16 s addr, s)

/-- `flash_read_8_bits(addr)`: the 8-bit load `*(uint8_t*)addr`. -/
def flash_read_8_bits (addr : Nat) (s : FlashState) : Nat × FlashState :=
  (s.mem addr, s)

/-- `flash_read_float_value(addr)`: load the 16-bit halves at `addr` and
`addr + 2` and reassemble the 32-bit pattern through the union (the inverse
reinterpretation of `flash_program_float_value`). -/
def flash_read_float_value (addr : Nat) (s : FlashState) : Nat × FlashState :=
  (load16 s addr + 65536 * load16 s (addr + 2), s)

/-- Behaviour of a 16-bit store to an option-byte cell: in option-byte
programming mode (`CR_OPTPG` set) the hardware programs the cell with the
low byte of the written value and its bitwise complement in the high byte;
outside programming mode the store has no effect on the cell. -/
def obCellWrite (optpg : Bool) (cur v : Nat) : Nat :=
  if optpg then (255 - v % 256) * 256 + v % 256 else cur

/-- `flash_OB_erase()`: set `CR_OPTER`, set `CR_STRT` — whereupon the
hardware erases the whole option-byte block, every cell to 0xFFFF —
wait-not-busy, and clear `CR_OPTER`. -/
def flash_OB_erase (s : FlashState) : FlashState :=
  let s1 := { s with opter := true }
  let s2 := { s1 with obUSER := 65535, obRDPR := 65535, obWRPR0 := 65535,
                      obWRPR1 := 65535, obData1 := 65535, obData0 := 65535 }
  { s2 with opter := false }

/-- `flash_write_option_byte_16_bits(data)`: wait-not-busy, snapshot the raw
contents of USER/RDPR/WRPR1/WRPR0, split `data` into its two bytes, erase
the option-byte block, set `CR_OPTPG`, store the four snapshots back, store
`Data1` then `Data0`, and clear `CR_OPTPG`.  The source performs no lock
check in this function. -/
def flash_write_option_byte_16_bits (d : Nat) (s : FlashState) : FlashState :=
  let data := d % 65536
  let tmp_user := s.obUSER
  let tmp_rdpr := s.obRDPR
  let tmp_wrpr1 := s.obWRPR1
  let tmp_wrpr0 := s.obWRPR0
  let tmp_data1 := data / 256 % 256
  let tmp_data0 := data % 256
  let s1 := flash_OB_erase s
  let s2 := { s1 with optpg := true }
  let s3 := { s2 with obUSER := obCellWrite s2.optpg s2.obUSER tmp_user }
  let s4 := { s3 with obRDPR := obCellWrite s3.optpg s3.obRDPR tmp_rdpr }
  let s5 := { s4 with obWRPR0 := obCellWrite s4.optpg s4.obWRPR0 tmp_wrpr0 }
  let s6 := { s5 with obWRPR1 := obCellWrite s5.optpg s5.obWRPR1 tmp_wrpr1 }
  let s7 := { s6 with obData1 := obCellWrite s6.optpg s6.obData1 tmp_data1 }
  let s8 := { s7 with obData0 := obCellWrite s7.optpg s7.obData0 tmp_data0 }
  { s8 with optpg := false }

/-- `flash_write_option_byte_2x8_bits(data1, data0)`: delegates
`(data1 << 8) + data0` to `flash_write_option_byte_16_bits`. -/
def flash_write_option_byte_2x8_bits (data1 data0 : Nat) (s : FlashState) : FlashState :=
  flash_write_option_byte_16_bits (Nat.shiftLeft (data1 % 256) 8 + data0 % 256) s

/-- `flash_read_option_byte_USER()`: `flash_dechecksum(OB->USER)`. -/
def flash_read_option_byte_USER (s : FlashState) : Nat × FlashState :=
  (flash_dechecksum s.obUSER, s)

/-- `flash_read_option_byte_RDPR()`: `flash_dechecksum(OB->RDPR)`. -/
def flash_read_option_byte_RDPR (s : FlashState) : Nat × FlashState :=
  (flash_dechecksum s.obRDPR, s)

/-- `flash_read_option_byte_WRPR1()`: `flash_dechecksum(OB->WRPR1)`. -/
def flash_read_option_byte_WRPR1 (s : FlashState) : Nat × FlashState :=
  (flash_dechecksum s.obWRPR1, s)

/-- `flash_read_option_byte_WRPR0()`: `flash_dechecksum(OB->WRPR0)`. -/
def flash_read_option_byte_WRPR0 (s : FlashState) : Nat × FlashState :=
  (flash_dechecksum s.obWRPR0, s)

/-- `flash_read_option_byte_DATA1()`: `flash_dechecksum(OB->Data1)`. -/
def flash_read_option_byte_DATA1 (s : FlashState) : Nat × FlashState :=
  (flash_dechecksum s.obData1, s)

/-- `flash_read_option_byte_DATA0()`: `flash_dechecksum(OB->Data0)`. -/
def flash_read_option_byte_DATA0 (s : FlashState) : Nat × FlashState :=
  (flash_dechecksum s.obData0, s)

/-- `flash_read_option_byte_DATA_16()`:
`(flash_read_option_byte_DATA1() << 8) + flash_read_option_byte_DATA0()`. -/
def flash_read_option_byte_DATA_16 (s : FlashState) : Nat × FlashState :=
  (Nat.shiftLeft (flash_read_option_byte_DATA1 s).1 8
    + (flash_read_option_byte_DATA0 s).1, s)

/-- A legally-encoded option-byte cell: a 16-bit value whose high byte is
the bitwise NOT of its low byte. -/
def validCell (c : Nat) : Prop :=
  c < 65536 ∧ c / 256 = 255 - c % 256

/-- A concrete state with the main array locked, all flash erased, and all
option-byte cells zero. -/
def lockedState : FlashState :=
  { mem := fun _ => 255, lock := true, per := false, pg := false,
    opter := false, optpg := false, faddr := 0,
    obUSER := 0, obRDPR := 0, obWRPR0 := 0, obWRPR1 := 0,
    obData1 := 0, obData0 := 0 }

/-- A concrete unlocked state whose USER/RDPR/WRPR cells are legally
encoded (0x5AA5 decodes to 0xA5, 0xFF00 decodes to 0x00). -/
def validObState : FlashState :=
  { mem := fun _ => 255, lock := false, per := false, pg := false,
    opter := false, optpg := false, faddr := 0,
    obUSER := 23205, obRDPR := 65280, obWRPR0 := 65280, obWRPR1 := 65280,
    obData1 := 65535, obData0 := 65535 }

/-- Decoding an option-byte cell that holds a byte together with its
complement yields that byte. -/
lemma dechecksum_encoded (v : Nat) :
    flash_dechecksum ((255 - v % 256) * 256 + v % 256) = v % 256 := by
  have hb : v % 256 < 256 := Nat.mod_lt _ (by decide)
  generalize v % 256 = b at hb ⊢
  have hble : b ≤ 255 := by omega
  generalize hcb : 255 - b = c
  have hc : c ≤ 255 := by omega
  have h1 : (c * 256 + b) % 256 = b := by omega
  have h2 : (c * 256 + b) / 256 % 256 = c := by omega
  simp only [flash_dechecksum, h1, h2]
  have h4 : 255 - c = b := by
    rw [← hcb]
    exact Nat.sub_sub_self hble
  rw [if_pos h4]

/-- A legally-encoded cell decodes to its own low byte. -/
lemma dechecksum_valid (c : Nat) (h : validCell c) :
    flash_dechecksum c = c % 256 := by
  obtain ⟨h1, h2⟩ := h
  have hcond : c / 256 % 256 = 255 - c % 256 := by
    rw [Nat.mod_eq_of_lt (by omega : c / 256 < 256), h2]
  simp only [flash_dechecksum, hcond]
  rw [if_pos (Nat.sub_sub_self (by omega))]

set_option maxRecDepth 8192 in
/-- C6: for every byte `b` in [0, 255], decoding an encoded cell
round-trips: `flash_dechecksum(((~b & 0xFF) << 8) | b) = b`. -/
theorem dechecksum_encode_roundtrip : ∀ b < 256, flash_dechecksum (encode b) = b := by
  decide

/-- Witness for `dechecksum_encode_roundtrip` at b = 0xA5. -/
theorem dechecksum_encode_roundtrip_witness :
    165 < 256 ∧ flash_dechecksum (encode 165) = 165 :=
  ⟨by decide, dechecksum_encode_roundtrip 165 (by decide)⟩

/-- C7: for every 16-bit `raw` whose high byte is not the bitwise NOT of
its low byte, `flash_dechecksum raw = 0`. -/
theorem dechecksum_rejects_mismatch (raw : Nat) (h16 : raw < 65536)
    (h : raw / 256 ≠ 255 - raw % 256) : flash_dechecksum raw = 0 := by
  simp only [flash_dechecksum]
  split <;> omega

/-- Witness for `dechecksum_rejects_mismatch` at raw = 0x1234. -/
theorem dechecksum_rejects_mismatch_witness :
    4660 < 65536 ∧ 4660 / 256 ≠ 255 - 4660 % 256 ∧ flash_dechecksum 4660 = 0 :=
  ⟨by decide, by decide, dechecksum_rejects_mismatch 4660 (by decide) (by decide)⟩

/-- C9: for every input, `flash_dechecksum` returns either 0 or the low
byte of its input, and its result always fits in 8 bits. -/
theorem dechecksum_result_shape (raw : Nat) :
    (flash_dechecksum raw = 0 ∨ flash_dechecksum raw = raw % 256)
      ∧ flash_dechecksum raw < 256 := by
  simp only [flash_dechecksum]
  split <;> omega

/-- C2: for every offset `n` within the reserved region's capacity (the
device has 16384 bytes of flash, so `flashLength + n < 16384`), the
compile-time macro and the runtime address calculation agree. -/
theorem precalc_runtime_address_agree (flashLength n : Nat)
    (h : flashLength + n < 16384) :
    FLASH_PRECALCULATE_NONVOLATILE_ADDR flashLength n
      = flash_calculate_runtime_address flashLength n := by
  simp only [FLASH_PRECALCULATE_NONVOLATILE_ADDR, flash_calculate_runtime_address,
    FLASH_BASE]
  omega

/-- Witness for `precalc_runtime_address_agree` at the example
configuration: reserved region starts at byte 16320, offset 10. -/
theorem precalc_runtime_address_agree_witness :
    16320 + 10 < 16384
      ∧ FLASH_PRECALCULATE_NONVOLATILE_ADDR 16320 10
        = flash_calculate_runtime_address 16320 10 :=
  ⟨by decide, precalc_runtime_address_agree 16320 10 (by decide)⟩

set_option maxRecDepth 4096 in
/-- C1 counterexample: with the main-array lock bit set,
`flash_write_option_byte_16_bits` is not a no-op — it changes the USER
option-byte cell (the source never checks the lock bit in this function). -/
theorem write_option_byte_locked_changes_state :
    lockedState.lock = true
      ∧ (flash_write_option_byte_16_bits 4660 lockedState).obUSER
        ≠ lockedState.obUSER := by
  constructor
  · rfl
  · simp [flash_write_option_byte_16_bits, flash_OB_erase, obCellWrite, lockedState]

/-- C1 amended: with the main-array lock bit set, `flash_erase_page` and
`flash_program_16` are silent no-ops that leave the whole state unchanged;
`flash_write_option_byte_16_bits` performs no such check. -/
theorem erase_program_locked_noop (s : FlashState) (a d : Nat)
    (h : s.lock = true) :
    flash_erase_page a s = s ∧ flash_program_16 a d s = s := by
  simp [flash_erase_page, flash_program_16, h]

/-- Witness for `erase_program_locked_noop` on a concrete locked state. -/
theorem erase_program_locked_noop_witness :
    lockedState.lock = true
      ∧ (flash_erase_page 134234048 lockedState = lockedState
          ∧ flash_program_16 134234048 48879 lockedState = lockedState) :=
  ⟨rfl, erase_program_locked_noop lockedState 134234048 48879 rfl⟩

set_option maxRecDepth 4096 in
/-- C3: for any legally-encoded pre-existing configuration,
`flash_write_option_byte_16_bits` leaves the decoded USER, RDPR, WRPR0 and
WRPR1 values unchanged from their pre-call values. -/
theorem write_option_bytes_preserves_protection (d : Nat) (s : FlashState)
    (hU : validCell s.obUSER) (hR : validCell s.obRDPR)
    (hW0 : validCell s.obWRPR0) (hW1 : validCell s.obWRPR1) :
    (flash_read_option_byte_USER (flash_write_option_byte_16_bits d s)).1
        = (flash_read_option_byte_USER s).1
      ∧ (flash_read_option_byte_RDPR (flash_write_option_byte_16_bits d s)).1
        = (flash_read_option_byte_RDPR s).1
      ∧ (flash_read_option_byte_WRPR0 (flash_write_option_byte_16_bits d s)).1
        = (flash_read_option_byte_WRPR0 s).1
      ∧ (flash_read_option_byte_WRPR1 (flash_write_option_byte_16_bits d s)).1
        = (flash_read_option_byte_WRPR1 s).1 := by
  refine ⟨?_, ?_, ?_, ?_⟩
  · simp [flash_read_option_byte_USER, flash_write_option_byte_16_bits,
      flash_OB_erase, obCellWrite, dechecksum_encoded, dechecksum_valid s.obUSER hU]
  · simp [flash_read_option_byte_RDPR, flash_write_option_byte_16_bits,
      flash_OB_erase, obCellWrite, dechecksum_encoded, dechecksum_valid s.obRDPR hR]
  · simp [flash_read_option_byte_WRPR0, flash_write_option_byte_16_bits,
      flash_OB_erase, obCellWrite, dechecksum_encoded, dechecksum_valid s.obWRPR0 hW0]
  · simp [flash_read_option_byte_WRPR1, flash_write_option_byte_16_bits,
      flash_OB_erase, obCellWrite, dechecksum_encoded, dechecksum_valid s.obWRPR1 hW1]

/-- Witness for `write_option_bytes_preserves_protection` on a concrete
legally-encoded option-byte configuration. -/
theorem write_option_bytes_preserves_protection_witness :
    (validCell validObState.obUSER ∧ validCell validObState.obRDPR
        ∧ validCell validObState.obWRPR0 ∧ validCell validObState.obWRPR1)
      ∧ ((flash_read_option_byte_USER (flash_write_option_byte_16_bits 4660 validObState)).1
          = (flash_read_option_byte_USER validObState).1
        ∧ (flash_read_option_byte_RDPR (flash_write_option_byte_16_bits 4660 validObState)).1
          = (flash_read_option_byte_RDPR validObState).1
        ∧ (flash_read_option_byte_WRPR0 (flash_write_option_byte_16_bits 4660 validObState)).1
          = (flash_read_option_byte_WRPR0 validObState).1
        ∧ (flash_read_option_byte_WRPR1 (flash_write_option_byte_16_bits 4660 validObState)).1
          = (flash_read_option_byte_WRPR1 validObState).1) :=
  ⟨⟨⟨by decide, by decide⟩, ⟨by decide, by decide⟩,
    ⟨by decide, by decide⟩, ⟨by decide, by decide⟩⟩,
   write_option_bytes_preserves_protection 4660 validObState
     ⟨by decide, by decide⟩ ⟨by decide, by decide⟩
     ⟨by decide, by decide⟩ ⟨by decide, by decide⟩⟩

/-- C4: with the controller unlocked, programming a 16-bit value at an
aligned address of an erased page and reading it back returns that value. -/
theorem program_then_read (s : FlashState) (addr d : Nat)
    (hlock : s.lock = false) (hd : d < 65536) (hal : addr % 2 = 0)
    (herased : ∀ a, a / 64 = addr / 64 → s.mem a = 255) :
    (flash_read_16_bits addr (flash_program_16 addr d s)).1 = d := by
  have hne : addr + 1 ≠ addr := by omega
  simp [flash_read_16_bits, flash_program_16, load16, hlock, hne]
  omega

/-- Witness for `program_then_read`: 0xBEEF programmed at
`FLASH_BASE + 16320` of an erased state reads back as 0xBEEF. -/
theorem program_then_read_witness :
    validObState.lock = false ∧ 48879 < 65536 ∧ 134234048 % 2 = 0
      ∧ (∀ a, a / 64 = 134234048 / 64 → validObState.mem a = 255)
      ∧ (flash_read_16_bits 134234048
          (flash_program_16 134234048 48879 validObState)).1 = 48879 :=
  ⟨rfl, by decide, by decide, fun _ _ => rfl,
   program_then_read validObState 134234048 48879 rfl (by decide) (by decide)
     (fun _ _ => rfl)⟩

/-- C5: with the controller unlocked, erasing the 64-byte page at a
page-aligned address resets it so that a 16-bit read at any aligned address
of that page yields 0xFFFF. -/
theorem erase_then_read (s : FlashState) (addr a : Nat)
    (haddr : addr < 4294967296) (hlock : s.lock = false)
    (hpage : addr % 64 = 0) (hin : a / 64 = addr / 64) (hal : a % 2 = 0) :
    (flash_read_16_bits a (flash_erase_page addr s)).1 = 65535 := by
  have hfa : addr % 4294967296 = addr := Nat.mod_eq_of_lt haddr
  have h2 : (a + 1) / 64 = addr / 64 := by omega
  simp [flash_read_16_bits, flash_erase_page, load16, hlock, hfa, hin, h2]

/-- Witness for `erase_then_read`: erasing the page at `FLASH_BASE + 16320`
and reading its first halfword yields 0xFFFF. -/
theorem erase_then_read_witness :
    134234048 < 4294967296 ∧ validObState.lock = false ∧ 134234048 % 64 = 0
      ∧ 134234048 / 64 = 134234048 / 64 ∧ 134234048 % 2 = 0
      ∧ (flash_read_16_bits 134234048
          (flash_erase_page 134234048 validObState)).1 = 65535 :=
  ⟨by decide, rfl, by decide, rfl, by decide,
   erase_then_read validObState 134234048 134234048 (by decide) rfl
     (by decide) rfl (by decide)⟩

set_option maxRecDepth 4096 in
/-- C8: with the controller unlocked, programming the 32-bit pattern of a
float value at an aligned address of a freshly erased page (the two halves
at `addr` and `addr + 2`) and reading it back returns the same pattern
bit-exactly. -/
theorem program_float_then_read (s : FlashState) (addr bits : Nat)
    (hlock : s.lock = false) (hb : bits < 4294967296) (hal : addr % 2 = 0)
    (hpage : (addr + 3) / 64 = addr / 64)
    (herased : ∀ a, a / 64 = addr / 64 → s.mem a = 255) :
    (flash_read_float_value addr (flash_program_float_value addr bits s)).1
      = bits := by
  have e1 : addr ≠ addr + 2 := by omega
  have e2 : addr ≠ addr + 3 := by omega
  have e3 : addr + 1 ≠ addr + 2 := by omega
  have e4 : addr + 1 ≠ addr + 3 := by omega
  have e5 : addr + 1 ≠ addr := by omega
  have e6 : addr + 3 ≠ addr + 2 := by omega
  simp [flash_read_float_value, flash_program_float_value, flash_program_16,
    load16, hlock, e1, e2, e3, e4, e5, e6]
  omega

/-- Witness for `program_float_then_read`: the bit pattern 0x40490FDB of
the float 3.14159... round-trips at `FLASH_BASE + 16320`. -/
theorem program_float_then_read_witness :
    validObState.lock = false ∧ 1078530011 < 4294967296 ∧ 134234048 % 2 = 0
      ∧ (134234048 + 3) / 64 = 134234048 / 64
      ∧ (∀ a, a / 64 = 134234048 / 64 → validObState.mem a = 255)
      ∧ (flash_read_float_value 134234048
          (flash_program_float_value 134234048 1078530011 validObState)).1
        = 1078530011 :=
  ⟨rfl, by decide, by decide, by decide, fun _ _ => rfl,
   program_float_then_read validObState 134234048 1078530011 rfl (by decide)
     (by decide) (by decide) (fun _ _ => rfl)⟩

/-- C10: every read operation — `flash_read_16_bits`, `flash_read_8_bits`,
`flash_read_float_value`, the six option-byte readers and
`flash_read_option_byte_DATA_16` — leaves the entire state unchanged, and
repeating the same read returns the same value. -/
theorem reads_leave_state_unchanged (s : FlashState) (addr : Nat) :
    (flash_read_16_bits addr s).2 = s
      ∧ (flash_read_8_bits addr s).2 = s
      ∧ (flash_read_float_value addr s).2 = s
      ∧ (flash_read_option_byte_USER s).2 = s
      ∧ (flash_read_option_byte_RDPR s).2 = s
      ∧ (flash_read_option_byte_WRPR1 s).2 = s
      ∧ (flash_read_option_byte_WRPR0 s).2 = s
      ∧ (flash_read_option_byte_DATA1 s).2 = s
      ∧ (flash_read_option_byte_DATA0 s).2 = s
      ∧ (flash_read_option_byte_DATA_16 s).2 = s
      ∧ (flash_read_16_bits addr (flash_read_16_bits addr s).2).1
        = (flash_read_16_bits addr s).1
      ∧ (flash_read_8_bits addr (flash_read_8_bits addr s).2).1
        = (flash_read_8_bits addr s).1
      ∧ (flash_read_float_value addr (flash_read_float_value addr s).2).1
        = (flash_read_float_value addr s).1
      ∧ (flash_read_option_byte_USER (flash_read_option_byte_USER s).2).1
        = (flash_read_option_byte_USER s).1
      ∧ (flash_read_option_byte_RDPR (flash_read_option_byte_RDPR s).2).1
        = (flash_read_option_byte_RDPR s).1
      ∧ (flash_read_option_byte_WRPR1 (flash_read_option_byte_WRPR1 s).2).1
        = (flash_read_option_byte_WRPR1 s).1
      ∧ (flash_read_option_byte_WRPR0 (flash_read_option_byte_WRPR0 s).2).1
        = (flash_read_option_byte_WRPR0 s).1
      ∧ (flash_read_option_byte_DATA1 (flash_read_option_byte_DATA1 s).2).1
        = (flash_read_option_byte_DATA1 s).1
      ∧ (flash_read_option_byte_DATA0 (flash_read_option_byte_DATA0 s).2).1
        = (flash_read_option_byte_DATA0 s).1
      ∧ (flash_read_option_byte_DATA_16 (flash_read_option_byte_DATA_16 s).2).1
        = (flash_read_option_byte_DATA_16 s).1 :=
  ⟨rfl, rfl, rfl, rfl, rfl, rfl, rfl, rfl, rfl, rfl,
   rfl, rfl, rfl, rfl, rfl, rfl, rfl, rfl, rfl, rfl⟩

end CH32V
